import Mathlib

/-!
Verification of the DrainSentinel firmware core (src/firmware_esp32s3.cpp):
a shallow embedding in Lean 4 of the rolling-window store, sensor-read
clamping, feature preparation, inference orchestration, and the
fusion/alert decision engine, together with theorems settling the spec
claims. Floating-point values are modelled as rationals; a float that may
be NaN is modelled as `Option ℚ` with `none` standing for NaN (every
ordered comparison against NaN is false, which the embedding reflects in
the `constrain` macro semantics).
-/

namespace DrainSentinel

/-! ## Fusion and decision logic (`fuse_and_alert`, lines 357-390) -/

/-- `ALERT_THRESHOLD_HIGH` (line 52). -/
def ALERT_THRESHOLD_HIGH : ℚ := 0.7

/-- `ALERT_THRESHOLD_MEDIUM` (line 53). -/
def ALERT_THRESHOLD_MEDIUM : ℚ := 0.5

/-- The weighted combination computed into `inference_results.alert_score`
(lines 361-365). `water_level_class` is an `int` in the source, divided by
the double literal `2.0`, hence real (not integer) division. -/
def fuse_score (blockage_score : ℚ) (water_level_class : ℤ) (flood_risk : ℚ) : ℚ :=
  0.40 * blockage_score +
  0.30 * ((water_level_class : ℚ) / 2) +
  0.30 * flood_risk

/-- The decision ladder of `fuse_and_alert` (lines 368-386), returning the
pair (alert_level, alert_message) written into `inference_results`. -/
def decide_alert (alert_score : ℚ) (water_level_class : ℤ) (flood_risk : ℚ) :
    String × String :=
  if alert_score > ALERT_THRESHOLD_HIGH ∧ water_level_class = 2 then
    ("HIGH", "CRITICAL: Drainage blockage detected with high water level!")
  else if alert_score > ALERT_THRESHOLD_MEDIUM ∨ water_level_class = 1 then
    ("MEDIUM", "WARNING: Potential blockage or elevated water level detected.")
  else if flood_risk > 0.7 then
    ("MEDIUM", "WARNING: Flood risk predicted based on weather patterns.")
  else
    ("LOW", "OK: Drainage system operating normally.")

/-- `fuse_and_alert` (lines 357-390): computes the fused score, then the
alert level and message from it. Returns (alert_score, alert_level,
alert_message). -/
def fuse_and_alert (blockage_score : ℚ) (water_level_class : ℤ) (flood_risk : ℚ) :
    ℚ × String × String :=
  let s := fuse_score blockage_score water_level_class flood_risk
  (s, decide_alert s water_level_class flood_risk)

/-! ## Rolling window store (`water_level_buffer`, `buffer_index`,
`update_water_level_buffer` lines 189-197, and the normalized readout in
`run_sensor_inference`'s `get_data` lines 271-277) -/

/-- The rolling-window state: `water_level_buffer` (a 60-slot float array,
modelled as a total function of which only indices 0..59 are ever
accessed) and the write cursor `buffer_index` (lines 69-70). -/
structure WindowState where
  water_level_buffer : ℕ → ℚ
  buffer_index : ℕ

/-- Startup state: `float water_level_buffer[60]` zero-initialized,
`buffer_index = 0` (lines 69-70). -/
def initWindow : WindowState :=
  { water_level_buffer := fun _ => 0, buffer_index := 0 }

/-- The buffer part of `update_water_level_buffer` (lines 189-197): write
the raw value at the cursor, advance the cursor modulo 60. -/
def update_water_level_buffer (s : WindowState) (water_level : ℚ) : WindowState :=
  { water_level_buffer := Function.update s.water_level_buffer s.buffer_index water_level,
    buffer_index := (s.buffer_index + 1) % 60 }

/-- The temporal model's feature readout (lines 271-277):
`out_ptr[i] = water_level_buffer[(buffer_index + i) % 60] / 100.0` for
`i = 0 .. 59`. -/
def read_normalized (s : WindowState) : List ℚ :=
  (List.range 60).map (fun i => s.water_level_buffer ((s.buffer_index + i) % 60) / 100)

/-- A sequence of `update_water_level_buffer` calls, oldest first. -/
def recordList (s : WindowState) : List ℚ → WindowState
  | [] => s
  | v :: vs => recordList (update_water_level_buffer s v) vs

lemma buffer_index_update_lt (s : WindowState) (v : ℚ) :
    (update_water_level_buffer s v).buffer_index < 60 :=
  Nat.mod_lt _ (by norm_num)

lemma read_normalized_length (s : WindowState) :
    (read_normalized s).length = 60 := by
  simp [read_normalized]

lemma read_normalized_getElem (s : WindowState) (i : ℕ)
    (h : i < (read_normalized s).length) :
    (read_normalized s)[i] =
      s.water_level_buffer ((s.buffer_index + i) % 60) / 100 := by
  unfold read_normalized
  rw [List.getElem_map, List.getElem_range]

/-- One record shifts the readout: drop the oldest value, append the new
one (normalized). -/
lemma read_normalized_update (s : WindowState) (v : ℚ)
    (h : s.buffer_index < 60) :
    read_normalized (update_water_level_buffer s v) =
      (read_normalized s).drop 1 ++ [v / 100] := by
  apply List.ext_getElem
  · simp [read_normalized_length]
  · intro i h1 h2
    rw [read_normalized_getElem]
    show Function.update s.water_level_buffer s.buffer_index v
        (((s.buffer_index + 1) % 60 + i) % 60) / 100 = _
    have h1' : i < 60 := by
      rw [read_normalized_length] at h1; exact h1
    rcases Nat.lt_or_ge i 59 with hi | hi
    · have hne : ((s.buffer_index + 1) % 60 + i) % 60 ≠ s.buffer_index := by
        omega
      rw [Function.update_noteq hne]
      have hlen : i < ((read_normalized s).drop 1).length := by
        simp [read_normalized_length]; omega
      rw [List.getElem_append_left hlen, List.getElem_drop,
        read_normalized_getElem]
      congr 2
      omega
    · have hi' : i = 59 := by omega
      subst hi'
      have heq : ((s.buffer_index + 1) % 60 + 59) % 60 = s.buffer_index := by
        omega
      rw [heq, Function.update_same]
      have hlen : ((read_normalized s).drop 1).length = 59 := by
        simp [read_normalized_length]
      rw [List.getElem_append_right (by omega)]
      simp [hlen]

/-- Recording a whole list appends its normalized values and drops as many
from the front. -/
lemma read_normalized_recordList (vs : List ℚ) (s : WindowState)
    (h : s.buffer_index < 60) :
    read_normalized (recordList s vs) =
      (read_normalized s ++ vs.map (fun v => v / 100)).drop vs.length := by
  induction vs generalizing s with
  | nil => simp [recordList]
  | cons v vs ih =>
    rw [recordList, ih _ (buffer_index_update_lt s v),
      read_normalized_update s v h, List.append_assoc, List.singleton_append,
      ← List.drop_append_of_le_length
        (show 1 ≤ (read_normalized s).length by simp [read_normalized_length]),
      List.drop_drop]
    simp [Nat.add_comm]

/-! ## Environmental sensor reads (lines 125-149)

A float that may be NaN is `Option ℚ`, `none` standing for NaN. Arduino's
`constrain(amt, low, high)` macro expands to
`(amt < low ? low : (amt > high ? high : amt))`; both comparisons are
false on NaN, so NaN passes through unchanged. -/

/-- Arduino `constrain` on a possibly-NaN float. -/
def constrain (amt : Option ℚ) (low high : ℚ) : Option ℚ :=
  match amt with
  | none => none
  | some a => some (if a < low then low else if high < a then high else a)

/-- `current_env_data` (lines 73-79): each field a float, possibly NaN. -/
structure EnvData where
  temperature : Option ℚ
  humidity : Option ℚ
  pressure : Option ℚ
  rainfall : Option ℚ
  water_level : Option ℚ
deriving DecidableEq

/-- `read_dht22` (lines 125-139): takes the two raw sensor readings; if
either is NaN the function returns early leaving `current_env_data`
untouched, otherwise both fields are stored clamped. -/
def read_dht22 (temp humidity : Option ℚ) (env : EnvData) : EnvData :=
  match temp, humidity with
  | some _, some _ =>
      { env with temperature := constrain temp 15 40,
                 humidity := constrain humidity 0 100 }
  | _, _ => env

/-- `read_bmp280` (lines 144-149): converts the raw Pa reading to hPa and
stores it clamped — with no NaN guard, so a NaN reading propagates through
`constrain` and is stored. -/
def read_bmp280 (pressure_pa : Option ℚ) (env : EnvData) : EnvData :=
  { env with pressure := constrain (pressure_pa.map (fun p => p / 100)) 990 1040 }

/-! ## Feature preparation and inference orchestration (lines 227-348)

Each Edge Impulse classifier is an external black box: it receives the
feature vector prepared by the corresponding `get_data` callback and
either fails (`EI_IMPULSE_ERROR ≠ EI_IMPULSE_OK`) or returns a list of
(label, score) classifications. -/

/-- The outcome of `run_classifier`: an error code, or (label, score)
pairs. -/
abbrev Classifier := List ℚ → Except Unit (List (String × ℚ))

/-- The visual model's `get_data` (lines 233-238): it ignores `frame_data`
entirely and `memset`s the output to zero, so the classifier receives an
all-zero vector of length `EI_CLASSIFIER_INPUT_SIZE` (kept abstract as
`inputSize`). -/
def visual_signal (inputSize : ℕ) (frame_data : List ℕ) : List ℚ :=
  List.replicate inputSize 0

/-- The extraction loop of `run_visual_inference` (lines 250-256): the
score of the first entry labelled "blockage", else 0.0. -/
def extract_blockage : List (String × ℚ) → ℚ
  | [] => 0
  | (label, value) :: rest =>
      if label = "blockage" then value else extract_blockage rest

/-- `run_visual_inference` (lines 227-260): hand the (all-zero) signal to
the classifier; on failure return 0.0, else extract the blockage score. -/
def run_visual_inference (inputSize : ℕ) (frame_data : List ℕ)
    (classifier : Classifier) : ℚ :=
  match classifier (visual_signal inputSize frame_data) with
  | .error _ => 0
  | .ok result => extract_blockage result

/-- The extraction loop of `run_sensor_inference` (lines 289-303): scan
for the maximum score, mapping labels normal/elevated/critical to classes
0/1/2; an unrecognized label updates the running maximum but not the
class. -/
def extract_water_class (result : List (String × ℚ)) : ℤ :=
  (result.foldl
    (fun (acc : ℤ × ℚ) lv =>
      if lv.2 > acc.2 then
        (if lv.1 = "normal" then 0
         else if lv.1 = "elevated" then 1
         else if lv.1 = "critical" then 2
         else acc.1, lv.2)
      else acc)
    (0, 0)).1

/-- `run_sensor_inference` (lines 265-307): the signal is the rolling
window's normalized readout; on failure return class 0. -/
def run_sensor_inference (win : WindowState) (classifier : Classifier) : ℤ :=
  match classifier (read_normalized win) with
  | .error _ => 0
  | .ok result => extract_water_class result

/-- The environmental `get_data` (lines 318-326): 5 features linearly
rescaled to [0,1] from the current (non-NaN) readings. -/
def env_features (temperature humidity pressure rainfall water_level : ℚ) :
    List ℚ :=
  [(temperature - 15) / 25,
   humidity / 100,
   1 - ((pressure - 990) / 50),
   rainfall / 100,
   water_level / 100]

/-- The extraction loop of `run_environmental_inference` (lines 338-344):
the score of the first entry labelled "high_risk", else 0.0. -/
def extract_flood_risk : List (String × ℚ) → ℚ
  | [] => 0
  | (label, value) :: rest =>
      if label = "high_risk" then value else extract_flood_risk rest

/-- `run_environmental_inference` (lines 312-348): on failure return 0.0,
else extract the high_risk score. -/
def run_environmental_inference
    (temperature humidity pressure rainfall water_level : ℚ)
    (classifier : Classifier) : ℚ :=
  match classifier
      (env_features temperature humidity pressure rainfall water_level) with
  | .error _ => 0
  | .ok result => extract_flood_risk result

/-- One inference cycle of `loop` (lines 537-557): run the three models,
then fuse. Returns (blockage_score, water_level_class, flood_risk,
(alert_score, alert_level, alert_message)). -/
def inference_cycle (inputSize : ℕ) (frame_buffer : List ℕ) (win : WindowState)
    (temperature humidity pressure rainfall water_level : ℚ)
    (visual sensor environmental : Classifier) :
    ℚ × ℤ × ℚ × (ℚ × String × String) :=
  let blockage_score := run_visual_inference inputSize frame_buffer visual
  let water_level_class := run_sensor_inference win sensor
  let flood_risk := run_environmental_inference
    temperature humidity pressure rainfall water_level environmental
  (blockage_score, water_level_class, flood_risk,
    fuse_and_alert blockage_score water_level_class flood_risk)

/-! ## Alert sink (`send_alert` lines 395-421 and the push condition in
`loop` lines 553-555) -/

/-- The JSON payload built by `send_alert` (lines 404-417). -/
structure AlertPayload where
  alert_level : String
  alert_message : String
  blockage_score : ℚ
  water_level_class : ℤ
  flood_risk : ℚ
  temperature : Option ℚ
  humidity : Option ℚ
  water_level : Option ℚ

/-- `send_alert` (lines 395-421): if WiFi is not connected, return
early without pushing; otherwise build and send the payload. `some p`
means the payload `p` was pushed. -/
def send_alert (wifi_connected : Bool) (level message : String)
    (blockage_score : ℚ) (water_level_class : ℤ) (flood_risk : ℚ)
    (env : EnvData) : Option AlertPayload :=
  if wifi_connected then
    some { alert_level := level, alert_message := message,
           blockage_score := blockage_score,
           water_level_class := water_level_class, flood_risk := flood_risk,
           temperature := env.temperature, humidity := env.humidity,
           water_level := env.water_level }
  else
    none

/-- The conditional push at the end of the inference cycle (lines
553-555): `send_alert` is called only when the alert level is not "LOW".
Returns the optional pushed payload together with the (unchanged) alert
state. -/
def alert_push_step (wifi_connected : Bool) (level message : String)
    (blockage_score : ℚ) (water_level_class : ℤ) (flood_risk : ℚ)
    (env : EnvData) : Option AlertPayload × (String × String) :=
  if level ≠ "LOW" then
    (send_alert wifi_connected level message blockage_score water_level_class
      flood_risk env, (level, message))
  else
    (none, (level, message))

end DrainSentinel

namespace DrainSentinel

/-- C1: The alert-level decision is a pure, deterministic, priority-ordered
function of (alert_score, water_level_class, flood_risk): whenever
alert_score > 0.7 and water_level_class = 2, the result is HIGH with the
HIGH message, for every value of flood_risk — no later clause is consulted. -/
theorem alert_high_priority (alert_score flood_risk : ℚ) (water_level_class : ℤ)
    (hs : alert_score > 0.7) (hc : water_level_class = 2) :
    decide_alert alert_score water_level_class flood_risk =
      ("HIGH", "CRITICAL: Drainage blockage detected with high water level!") := by
  unfold decide_alert ALERT_THRESHOLD_HIGH
  rw [if_pos ⟨hs, hc⟩]

/-- Witness for C1 at alert_score = 0.75, water_level_class = 2,
flood_risk = 0.9 (a flood_risk that would itself fire the flood clause). -/
theorem alert_high_priority_witness :
    decide_alert 0.75 2 0.9 =
      ("HIGH", "CRITICAL: Drainage blockage detected with high water level!") :=
  alert_high_priority 0.75 0.9 2 (by norm_num) rfl

/-- C2: for every blockage_score, water_level_class and flood_risk, the
fused score equals 0.40·blockage_score + 0.30·(water_level_class/2) +
0.30·flood_risk, with water_level_class divided by 2 before weighting. -/
theorem fuse_score_formula (blockage_score flood_risk : ℚ) (water_level_class : ℤ) :
    (fuse_and_alert blockage_score water_level_class flood_risk).1 =
      0.40 * blockage_score + 0.30 * ((water_level_class : ℚ) / 2) +
        0.30 * flood_risk := rfl

/-- C4 counterexample: the class-triggered MEDIUM case (0.1, 1, 0.1) and
the score-triggered MEDIUM case (0.55, 0, 0.2) both take the second clause
of the ladder and therefore produce the SAME alert_message — the claimed
distinctness fails. -/
theorem medium_messages_equal :
    (decide_alert 0.1 1 0.1).2 = (decide_alert 0.55 0 0.2).2 ∧
    decide_alert 0.1 1 0.1 =
      ("MEDIUM", "WARNING: Potential blockage or elevated water level detected.") ∧
    decide_alert 0.55 0 0.2 =
      ("MEDIUM", "WARNING: Potential blockage or elevated water level detected.") := by
  have h1 : decide_alert 0.1 1 0.1 =
      ("MEDIUM", "WARNING: Potential blockage or elevated water level detected.") := by
    unfold decide_alert ALERT_THRESHOLD_HIGH ALERT_THRESHOLD_MEDIUM
    norm_num
  have h2 : decide_alert 0.55 0 0.2 =
      ("MEDIUM", "WARNING: Potential blockage or elevated water level detected.") := by
    unfold decide_alert ALERT_THRESHOLD_HIGH ALERT_THRESHOLD_MEDIUM
    norm_num
  exact ⟨by rw [h1, h2], h1, h2⟩

/-- C4 amended: both (0.1, 1, 0.1) and (0.55, 0, 0.2) yield MEDIUM via the
second clause (class-triggered and score-triggered respectively), with one
and the same message; the only MEDIUM message distinct from it is the
flood-risk clause's. -/
theorem medium_class_and_score_cases :
    decide_alert 0.1 1 0.1 =
      ("MEDIUM", "WARNING: Potential blockage or elevated water level detected.") ∧
    decide_alert 0.55 0 0.2 =
      ("MEDIUM", "WARNING: Potential blockage or elevated water level detected.") ∧
    "WARNING: Potential blockage or elevated water level detected." ≠
      "WARNING: Flood risk predicted based on weather patterns." := by
  refine ⟨?_, ?_, by decide⟩ <;>
    · unfold decide_alert ALERT_THRESHOLD_HIGH ALERT_THRESHOLD_MEDIUM
      norm_num

/-- C8: the flood-risk clause fires only when neither the HIGH clause nor
the first MEDIUM clause matched; it yields MEDIUM with the flood-risk
message, which differs from the first MEDIUM clause's message even though
the level is the same. -/
theorem flood_risk_clause (alert_score flood_risk : ℚ) (water_level_class : ℤ)
    (h1 : ¬(alert_score > 0.7 ∧ water_level_class = 2))
    (h2 : ¬(alert_score > 0.5 ∨ water_level_class = 1))
    (h3 : flood_risk > 0.7) :
    decide_alert alert_score water_level_class flood_risk =
      ("MEDIUM", "WARNING: Flood risk predicted based on weather patterns.") ∧
    "WARNING: Flood risk predicted based on weather patterns." ≠
      "WARNING: Potential blockage or elevated water level detected." := by
  refine ⟨?_, by decide⟩
  unfold decide_alert ALERT_THRESHOLD_HIGH ALERT_THRESHOLD_MEDIUM
  rw [if_neg h1, if_neg h2, if_pos h3]

/-- Witness for C8: alert_score = 0.2, water_level_class = 0,
flood_risk = 0.8 yields MEDIUM with the flood-risk message. -/
theorem flood_risk_clause_witness :
    decide_alert 0.2 0 0.8 =
      ("MEDIUM", "WARNING: Flood risk predicted based on weather patterns.") ∧
    "WARNING: Flood risk predicted based on weather patterns." ≠
      "WARNING: Potential blockage or elevated water level detected." :=
  flood_risk_clause 0.2 0.8 0 (by norm_num) (by norm_num) (by norm_num)

lemma read_normalized_initWindow :
    read_normalized initWindow = List.replicate 60 0 := by
  simp [read_normalized, initWindow]

/-- C3 counterexample: after a single record call the readout still has
60 values, but its first element is 0 — a leftover of the zero-initialized
buffer, not any previously recorded value divided by 100 (the only
recorded value, 7, yields 7/100 ≠ 0). -/
theorem window_readout_cold_start :
    read_normalized (recordList initWindow [7]) =
      List.replicate 59 0 ++ [7 / 100] ∧
    (read_normalized (recordList initWindow [7]))[0]? = some 0 ∧
    (0 : ℚ) ∉ ([7] : List ℚ).map (fun v => v / 100) := by
  have h : read_normalized (recordList initWindow [7]) =
      List.replicate 59 0 ++ [7 / 100] := by
    show read_normalized (update_water_level_buffer initWindow 7) = _
    rw [read_normalized_update initWindow 7 (by norm_num [initWindow]),
      read_normalized_initWindow]
    rfl
  refine ⟨h, by rw [h]; rfl, ?_⟩
  simp only [List.map_cons, List.map_nil, List.mem_singleton]
  norm_num

/-- C3 amended: once at least N = 60 values have been recorded (60 + k
records from the initial window), the normalized readout yields exactly 60
values — the last 60 recorded values, each divided by 100, oldest to
newest starting at the write cursor's slot — so the oldest k recorded
values are no longer present. -/
theorem window_readout_spec (vs : List ℚ) (k : ℕ) (h : vs.length = 60 + k) :
    (read_normalized (recordList initWindow vs)).length = 60 ∧
    read_normalized (recordList initWindow vs) =
      (vs.drop k).map (fun v => v / 100) := by
  refine ⟨read_normalized_length _, ?_⟩
  rw [read_normalized_recordList vs initWindow (by norm_num [initWindow]), h,
    show (60 : ℕ) + k = (read_normalized initWindow).length + k by
      rw [read_normalized_length],
    List.drop_append, ← List.map_drop]

/-- Witness for C3: 61 records of the value 5; the readout is the last 60
of them, normalized. -/
theorem window_readout_spec_witness :
    (read_normalized (recordList initWindow (List.replicate 61 (5:ℚ)))).length = 60 ∧
    read_normalized (recordList initWindow (List.replicate 61 (5:ℚ))) =
      ((List.replicate 61 (5:ℚ)).drop 1).map (fun v => v / 100) :=
  window_readout_spec (List.replicate 61 5) 1 (by simp)

/-- C5 counterexample: `read_bmp280` has no NaN guard, so a NaN pressure
reading does NOT leave the previously stored pressure unchanged — it
overwrites it (with NaN, which `constrain` passes through). -/
theorem bmp280_nan_overwrites :
    read_bmp280 none
        ⟨some 20, some 50, some 1000, some 0, some 0⟩ ≠
      ⟨some 20, some 50, some 1000, some 0, some 0⟩ ∧
    (read_bmp280 none
        ⟨some 20, some 50, some 1000, some 0, some 0⟩).pressure = none := by
  constructor
  · intro hcontra
    have := congrArg EnvData.pressure hcontra
    simp [read_bmp280, constrain] at this
  · simp [read_bmp280, constrain]

/-- C5 amended: a NaN reading on either DHT22 channel (temperature,
humidity) leaves the whole environmental record unchanged, and valid DHT22
reads are clamped to [15,40] and [0,100] before being stored; the BMP280
pressure, by contrast, is clamped but has no NaN guard — the constrained
reading is always stored, so a NaN pressure reading overwrites the prior
value with NaN. -/
theorem sensor_read_validity (env : EnvData) (t h p : Option ℚ) :
    read_dht22 none h env = env ∧
    read_dht22 t none env = env ∧
    (∀ tv hv : ℚ,
      read_dht22 (some tv) (some hv) env =
        { env with
            temperature := some (if tv < 15 then 15 else if 40 < tv then 40 else tv),
            humidity := some (if hv < 0 then 0 else if 100 < hv then 100 else hv) }) ∧
    (read_bmp280 p env).pressure =
      constrain (p.map (fun x => x / 100)) 990 1040 ∧
    (read_bmp280 none env).pressure = none := by
  refine ⟨?_, ?_, ?_, rfl, rfl⟩
  · rfl
  · cases t <;> rfl
  · intro tv hv
    rfl

/-- C6: the environmental feature vector has exactly the five stated
linear rescalings, and each element lies in [0,1] whenever the raw field
is within its clamp bounds. -/
theorem env_features_spec (t h p r w : ℚ)
    (ht1 : 15 ≤ t) (ht2 : t ≤ 40) (hh1 : 0 ≤ h) (hh2 : h ≤ 100)
    (hp1 : 990 ≤ p) (hp2 : p ≤ 1040) (hr1 : 0 ≤ r) (hr2 : r ≤ 100)
    (hw1 : 0 ≤ w) (hw2 : w ≤ 100) :
    env_features t h p r w =
      [(t - 15) / 25, h / 100, 1 - ((p - 990) / 50), r / 100, w / 100] ∧
    ∀ x ∈ env_features t h p r w, 0 ≤ x ∧ x ≤ 1 := by
  refine ⟨rfl, ?_⟩
  intro x hx
  simp only [env_features, List.mem_cons, List.not_mem_nil, or_false] at hx
  rcases hx with hx | hx | hx | hx | hx <;> subst hx
  · exact ⟨div_nonneg (by linarith) (by norm_num),
      (div_le_one (by norm_num)).mpr (by linarith)⟩
  · exact ⟨div_nonneg (by linarith) (by norm_num),
      (div_le_one (by norm_num)).mpr (by linarith)⟩
  · constructor
    · rw [sub_nonneg, div_le_one (by norm_num)]; linarith
    · rw [sub_le_self_iff]; exact div_nonneg (by linarith) (by norm_num)
  · exact ⟨div_nonneg (by linarith) (by norm_num),
      (div_le_one (by norm_num)).mpr (by linarith)⟩
  · exact ⟨div_nonneg (by linarith) (by norm_num),
      (div_le_one (by norm_num)).mpr (by linarith)⟩

/-- Witness for C6 at temperature 20, humidity 50, pressure 1000,
rainfall 10, water level 30 — all within their clamp bounds. -/
theorem env_features_spec_witness :
    env_features 20 50 1000 10 30 =
      [((20:ℚ) - 15) / 25, (50:ℚ) / 100, 1 - (((1000:ℚ) - 990) / 50),
        (10:ℚ) / 100, (30:ℚ) / 100] ∧
    ∀ x ∈ env_features 20 50 1000 10 30, 0 ≤ x ∧ x ≤ 1 :=
  env_features_spec 20 50 1000 10 30 (by norm_num) (by norm_num) (by norm_num)
    (by norm_num) (by norm_num) (by norm_num) (by norm_num) (by norm_num)
    (by norm_num) (by norm_num)

/-- C7: a failure of any single classifier yields that model's default
output (visual → 0.0, temporal → class 0, environmental → 0.0) without
aborting the cycle: the other two extractions still run and the fusion
step completes with the default substituted. -/
theorem classifier_failure_degrades (inputSize : ℕ) (frame : List ℕ)
    (win : WindowState) (t h p r w : ℚ)
    (visual sensor environmental : Classifier) :
    inference_cycle inputSize frame win t h p r w
        (fun _ => .error ()) sensor environmental =
      (0, run_sensor_inference win sensor,
        run_environmental_inference t h p r w environmental,
        fuse_and_alert 0 (run_sensor_inference win sensor)
          (run_environmental_inference t h p r w environmental)) ∧
    inference_cycle inputSize frame win t h p r w
        visual (fun _ => .error ()) environmental =
      (run_visual_inference inputSize frame visual, 0,
        run_environmental_inference t h p r w environmental,
        fuse_and_alert (run_visual_inference inputSize frame visual) 0
          (run_environmental_inference t h p r w environmental)) ∧
    inference_cycle inputSize frame win t h p r w
        visual sensor (fun _ => .error ()) =
      (run_visual_inference inputSize frame visual,
        run_sensor_inference win sensor, 0,
        fuse_and_alert (run_visual_inference inputSize frame visual)
          (run_sensor_inference win sensor) 0) :=
  ⟨rfl, rfl, rfl⟩

/-- C9: after an inference cycle, the payload is actively pushed if and
only if the alert level is not "LOW" and WiFi is connected; in every case
the computed alert state is retained unchanged for later status queries. -/
theorem alert_pushed_iff (wifi : Bool) (level message : String)
    (blockage_score : ℚ) (water_level_class : ℤ) (flood_risk : ℚ)
    (env : EnvData) :
    ((alert_push_step wifi level message blockage_score water_level_class
        flood_risk env).1.isSome ↔ (level ≠ "LOW" ∧ wifi = true)) ∧
    (alert_push_step wifi level message blockage_score water_level_class
        flood_risk env).2 = (level, message) := by
  unfold alert_push_step send_alert
  by_cases hl : level = "LOW" <;> cases wifi <;> simp [hl]

/-- C10: `run_visual_inference` never reads its `frame_data` argument —
the signal handed to the visual classifier is an all-zero vector — so the
blockage score is identical for every pair of captured frames. -/
theorem visual_inference_ignores_frame (inputSize : ℕ) (frame1 frame2 : List ℕ)
    (classifier : Classifier) :
    run_visual_inference inputSize frame1 classifier =
      run_visual_inference inputSize frame2 classifier ∧
    visual_signal inputSize frame1 = List.replicate inputSize 0 :=
  ⟨rfl, rfl⟩

end DrainSentinel
